import Mathlib

/-!
# examples/c/hello.c

A shallow embedding of the `main` function of `examples/c/hello.c` and the
properties of its observable behaviour (standard output and exit status).

Modelling conventions:

* a C string (`const char *`) is modelled by a `String` holding the characters
  that precede its terminating NUL;
* `argv` is modelled by the list of its `argc` strings, so `argc` is the length
  of that list;
* reading `argv[i]` is fallible: an index outside the list is a fault;
* the machine state threaded through `main` holds what has been written to
  standard output and the log of the `argv` indices that have been read.
-/

namespace Hello

/-- Faults of the embedded program: an `argv` slot read outside `0 .. argc-1`. -/
inductive Fault where
  | outOfBounds (i : Nat)
  deriving DecidableEq, Repr

/-- Machine state: the text written to standard output so far and the indices
of `argv` that have been read so far, oldest first. -/
structure State where
  stdout : String
  reads : List Nat
  deriving DecidableEq, Repr

/-- State in which `main` is entered: nothing written, nothing read. -/
def State.init : State := ⟨"", []⟩

/-- The expression `argv[i]`: yields the string at index `i` and logs the read,
or faults when `i` is not below `argc`. -/
def readArg (argv : List String) (i : Nat) (s : State) : Except Fault (String × State) :=
  match argv[i]? with
  | some a => .ok (a, { s with reads := s.reads ++ [i] })
  | none => .error (.outOfBounds i)

/-- The character loop of `strcmp`: walk both strings while they agree. The
result is zero when both end together; otherwise its sign is that of the first
difference, a string that ends first (its NUL is reached) being the smaller. -/
def strcmpChars : List Char → List Char → Int
  | [], [] => 0
  | [], _ :: _ => -1
  | _ :: _, [] => 1
  | a :: as, b :: bs => if a = b then strcmpChars as bs else if a < b then -1 else 1

/-- The C library `strcmp` on two C strings. -/
def strcmp (a b : String) : Int :=
  strcmpChars a.data b.data

/-- The C library `printf`, applied to text that is already formatted: the text
is appended to standard output. -/
def printf (text : String) (s : State) : State :=
  { s with stdout := s.stdout ++ text }

/-- The format `"%s, %s.\n"` applied to two strings. -/
def formatGreeting (greeting noun : String) : String :=
  greeting ++ ", " ++ noun ++ ".\n"

/-- The literal printed on the usage path. -/
def usageText : String := "Usage: hello [greeting] [noun]\n"

/-- The condition of the first `if` of `main`,
`((argc > 1) && (!strcmp(argv[0], "-h") || !strcmp(argv[0], "--help"))) || (argc > 3)`,
with the left-to-right short-circuit evaluation of `&&` and `||`. -/
def usageCondition (argv : List String) (s : State) : Except Fault (Bool × State) :=
  let argc := argv.length
  if argc > 1 then
    match readArg argv 0 s with
    | .error e => .error e
    | .ok (a, s1) =>
      if strcmp a "-h" = 0 then .ok (true, s1)
      else
        match readArg argv 0 s1 with
        | .error e => .error e
        | .ok (b, s2) =>
          if strcmp b "--help" = 0 then .ok (true, s2)
          else .ok (decide (argc > 3), s2)
  else .ok (decide (argc > 3), s)

/-- The statement `if (argc > 1) { greeting = argv[1]; }` acting on the local
variable `greeting`. -/
def overrideGreeting (argv : List String) (greeting : String) (s : State) :
    Except Fault (String × State) :=
  if argv.length > 1 then readArg argv 1 s else .ok (greeting, s)

/-- The statement `if (argc > 2) { noun = argv[2]; }` acting on the local
variable `noun`. -/
def overrideNoun (argv : List String) (noun : String) (s : State) :
    Except Fault (String × State) :=
  if argv.length > 2 then readArg argv 2 s else .ok (noun, s)

/-- The function `main` of `hello.c`, run from state `s`: the exit status and
the final state, or a fault. -/
def main (argv : List String) (s : State) : Except Fault (Int × State) :=
  let greeting := "Hello"
  let noun := "world"
  match usageCondition argv s with
  | .error e => .error e
  | .ok (true, s1) => .ok (0, printf usageText s1)
  | .ok (false, s1) =>
    match overrideGreeting argv greeting s1 with
    | .error e => .error e
    | .ok (greeting1, s2) =>
      match overrideNoun argv noun s2 with
      | .error e => .error e
      | .ok (noun1, s3) => .ok (0, printf (formatGreeting greeting1 noun1) s3)

/-- What a run of `main` from the initial state writes to standard output;
`none` when the run faults. -/
def mainOutput (argv : List String) : Option String :=
  match main argv State.init with
  | .ok (_, s) => some s.stdout
  | .error _ => none

/-- The exit status of a run of `main` from the initial state; `none` when the
run faults. -/
def mainStatus (argv : List String) : Option Int :=
  match main argv State.init with
  | .ok (status, _) => some status
  | .error _ => none

/-- The `argv` indices read by a run of `main` from the initial state; `none`
when the run faults. -/
def mainReads (argv : List String) : Option (List Nat) :=
  match main argv State.init with
  | .ok (_, s) => some s.reads
  | .error _ => none

example : mainOutput ["hello"] = some "Hello, world.\n" := by decide
example : mainOutput ["hello", "Hey"] = some "Hey, world.\n" := by decide
example : mainOutput ["hello", "Hey", "friend"] = some "Hey, friend.\n" := by decide
example : mainOutput ["hello", "Hey", "friend", "extra"] = some usageText := by decide
example : mainOutput ["-h", "Hey"] = some usageText := by decide
example : mainOutput ["--help", "Hey"] = some usageText := by decide
example : mainOutput ["-h"] = some "Hello, world.\n" := by decide
example : mainOutput [] = some "Hello, world.\n" := by decide
example : mainReads ["hello", "Hey", "friend"] = some [0, 0, 1, 2] := by decide
example : mainReads ["-h", "Hey", "friend"] = some [0] := by decide

/-! ## Library functions -/

theorem strcmpChars_eq_zero_iff (a b : List Char) : strcmpChars a b = 0 ↔ a = b := by
  induction a generalizing b with
  | nil => cases b <;> simp [strcmpChars]
  | cons x xs ih =>
    cases b with
    | nil => simp [strcmpChars]
    | cons y ys =>
      by_cases hxy : x = y
      · simp [strcmpChars, hxy, ih]
      · by_cases hlt : x < y <;> simp [strcmpChars, hxy, hlt]

theorem strcmp_eq_zero_iff (a b : String) : strcmp a b = 0 ↔ a = b := by
  rw [strcmp, strcmpChars_eq_zero_iff, String.ext_iff]

/-! ## Runs of `main` by shape of `argv` -/

theorem main_short (argv : List String) (s : State) (h : argv.length ≤ 1) :
    main argv s = .ok (0, printf (formatGreeting "Hello" "world") s) := by
  rcases argv with _ | ⟨a, _ | ⟨b, rest⟩⟩
  · simp [main, usageCondition, overrideGreeting, overrideNoun]
  · simp [main, usageCondition, overrideGreeting, overrideNoun]
  · simp at h

theorem main_dash_h (b : String) (rest : List String) (s : State) :
    main ("-h" :: b :: rest) s = .ok (0, ⟨s.stdout ++ usageText, s.reads ++ [0]⟩) := by
  simp [main, usageCondition, readArg, printf, strcmp_eq_zero_iff]

theorem main_dash_dash_help (b : String) (rest : List String) (s : State) :
    main ("--help" :: b :: rest) s = .ok (0, ⟨s.stdout ++ usageText, s.reads ++ [0, 0]⟩) := by
  have hne : ¬ ("--help" = "-h") := by decide
  simp [main, usageCondition, readArg, printf, strcmp_eq_zero_iff, hne]

theorem main_many (a b c d : String) (rest : List String) (s : State)
    (h1 : a ≠ "-h") (h2 : a ≠ "--help") :
    main (a :: b :: c :: d :: rest) s
      = .ok (0, ⟨s.stdout ++ usageText, s.reads ++ [0, 0]⟩) := by
  simp [main, usageCondition, readArg, printf, strcmp_eq_zero_iff, h1, h2]

theorem main_two (a b : String) (s : State) (h1 : a ≠ "-h") (h2 : a ≠ "--help") :
    main [a, b] s
      = .ok (0, ⟨s.stdout ++ formatGreeting b "world", s.reads ++ [0, 0, 1]⟩) := by
  simp [main, usageCondition, overrideGreeting, overrideNoun, readArg, printf,
    strcmp_eq_zero_iff, h1, h2]

theorem main_three (a b c : String) (s : State) (h1 : a ≠ "-h") (h2 : a ≠ "--help") :
    main [a, b, c] s
      = .ok (0, ⟨s.stdout ++ formatGreeting b c, s.reads ++ [0, 0, 1, 2]⟩) := by
  simp [main, usageCondition, overrideGreeting, overrideNoun, readArg, printf,
    strcmp_eq_zero_iff, h1, h2]

/-! ## The two output texts -/

theorem formatGreeting_ne_usageText (g n : String) : formatGreeting g n ≠ usageText := by
  intro h
  have h2 := congrArg (fun t => t.data.reverse.take 2) h
  simp [formatGreeting, usageText] at h2

theorem formatGreeting_world (g : String) : formatGreeting g "world" = g ++ ", world.\n" := by
  simp [formatGreeting, String.append_assoc]

theorem formatGreeting_hello_world : formatGreeting "Hello" "world" = "Hello, world.\n" := by
  decide

theorem formatGreeting_getLast (g n : String) :
    (formatGreeting g n).data.getLast? = some '\n' := by
  have hsplit : (formatGreeting g n).data
      = (g.data ++ ',' :: ' ' :: (n.data ++ ['.'])) ++ ['\n'] := by
    simp [formatGreeting]
  rw [hsplit, List.getLast?_concat]

theorem formatGreeting_count (g n : String) :
    (formatGreeting g n).data.count '\n' = g.data.count '\n' + n.data.count '\n' + 1 := by
  simp [formatGreeting, List.count_cons]
  omega

/-! ## Observations of a run -/

theorem mainOutput_of_run {args : List String} {status : Int} {s : State}
    (h : main args State.init = .ok (status, s)) : mainOutput args = some s.stdout := by
  rw [mainOutput, h]

theorem mainStatus_of_run {args : List String} {status : Int} {s : State}
    (h : main args State.init = .ok (status, s)) : mainStatus args = some status := by
  rw [mainStatus, h]

theorem mainReads_of_run {args : List String} {status : Int} {s : State}
    (h : main args State.init = .ok (status, s)) : mainReads args = some s.reads := by
  rw [mainReads, h]

/-! ## Output and exit status -/

/-- C1: for every argument vector, the output of `main` is exactly the usage
line if and only if (`argc > 1` and `args[0]` is exactly `-h` or exactly
`--help`) or `argc > 3`; in every other case the output is
`greeting ++ ", " ++ noun ++ ".\n"`, where `greeting` is `args[1]` if
`argc > 1` and `Hello` otherwise, and `noun` is `args[2]` if `argc > 2` and
`world` otherwise. -/
theorem main_output_characterisation (args : List String) :
    (mainOutput args = some "Usage: hello [greeting] [noun]\n" ↔
      ((1 < args.length ∧ (args[0]? = some "-h" ∨ args[0]? = some "--help"))
        ∨ 3 < args.length)) ∧
    mainOutput args = some
      (if (1 < args.length ∧ (args[0]? = some "-h" ∨ args[0]? = some "--help"))
          ∨ 3 < args.length
       then "Usage: hello [greeting] [noun]\n"
       else (if h : 1 < args.length then args[1] else "Hello") ++ ", "
          ++ (if h : 2 < args.length then args[2] else "world") ++ ".\n") := by
  have hu : ∀ g n : String, ¬ (g ++ ", " ++ n ++ ".\n" = "Usage: hello [greeting] [noun]\n") :=
    formatGreeting_ne_usageText
  rcases args with _ | ⟨a, _ | ⟨b, rest⟩⟩
  · simp [mainOutput, main_short, printf, State.init, formatGreeting, hu]
  · simp [mainOutput, main_short, printf, State.init, formatGreeting, hu]
  · by_cases h1 : a = "-h"
    · subst h1
      simp [mainOutput, main_dash_h, State.init, usageText]
    · by_cases h2 : a = "--help"
      · subst h2
        simp [mainOutput, main_dash_dash_help, State.init, usageText]
      · rcases rest with _ | ⟨c, _ | ⟨d, rest⟩⟩
        · simp [mainOutput, main_two _ _ _ h1 h2, State.init, formatGreeting, h1, h2, hu]
        · simp [mainOutput, main_three _ _ _ _ h1 h2, State.init, formatGreeting, h1, h2, hu]
        · simp [mainOutput, main_many _ _ _ _ _ _ h1 h2, State.init, usageText]

/-- C2: for every argument vector of length exactly 1 (only the invocation
name, whatever its content), `main` outputs exactly `Hello, world.\n` and
returns exit status 0. -/
theorem main_one_argument (args : List String) (h : args.length = 1) :
    mainOutput args = some "Hello, world.\n" ∧ mainStatus args = some 0 := by
  have hrun := main_short args State.init (le_of_eq h)
  constructor
  · rw [mainOutput_of_run hrun]
    simp [printf, State.init, formatGreeting_hello_world]
  · rw [mainStatus_of_run hrun]

/-- Witness of C2: the invocation name `-h` alone. -/
theorem main_one_argument_witness :
    ["-h"].length = 1 ∧
      mainOutput ["-h"] = some "Hello, world.\n" ∧ mainStatus ["-h"] = some 0 :=
  ⟨rfl, main_one_argument ["-h"] rfl⟩

/-- C3, as stated, fails: the two arguments `-h`, `Hey` print the usage line,
not `Hey, world.\n`. -/
theorem main_two_arguments_counterexample :
    mainOutput ["-h", "Hey"] = some "Usage: hello [greeting] [noun]\n" ∧
      mainOutput ["-h", "Hey"] ≠ some ("Hey" ++ ", world.\n") := by
  decide

/-- C3, amended: for all invocations with exactly 2 arguments whose `args[0]`
is neither `-h` nor `--help`, the output of `main` is
`args[1] ++ ", world.\n"`. -/
theorem main_two_arguments (a0 a1 : String) (h1 : a0 ≠ "-h") (h2 : a0 ≠ "--help") :
    mainOutput [a0, a1] = some (a1 ++ ", world.\n") := by
  simp [mainOutput, main_two a0 a1 _ h1 h2, State.init, formatGreeting_world]

/-- Witness of C3 (amended): `hello Hey`. -/
theorem main_two_arguments_witness :
    ("hello" ≠ "-h" ∧ "hello" ≠ "--help") ∧
      mainOutput ["hello", "Hey"] = some ("Hey" ++ ", world.\n") :=
  ⟨by decide, main_two_arguments "hello" "Hey" (by decide) (by decide)⟩

/-- C4, as stated, fails: the three arguments `--help`, `Hey`, `friend` print
the usage line, not `Hey, friend.\n`. -/
theorem main_three_arguments_counterexample :
    mainOutput ["--help", "Hey", "friend"] = some "Usage: hello [greeting] [noun]\n" ∧
      mainOutput ["--help", "Hey", "friend"] ≠ some ("Hey" ++ ", " ++ "friend" ++ ".\n") := by
  decide

/-- C4, amended: for all invocations with exactly 3 arguments whose `args[0]`
is neither `-h` nor `--help`, the output of `main` is
`args[1] ++ ", " ++ args[2] ++ ".\n"`. -/
theorem main_three_arguments (a0 a1 a2 : String) (h1 : a0 ≠ "-h") (h2 : a0 ≠ "--help") :
    mainOutput [a0, a1, a2] = some (a1 ++ ", " ++ a2 ++ ".\n") := by
  simp [mainOutput, main_three a0 a1 a2 _ h1 h2, State.init, formatGreeting]

/-- Witness of C4 (amended): `hello Hey friend`. -/
theorem main_three_arguments_witness :
    ("hello" ≠ "-h" ∧ "hello" ≠ "--help") ∧
      mainOutput ["hello", "Hey", "friend"] = some ("Hey" ++ ", " ++ "friend" ++ ".\n") :=
  ⟨by decide, main_three_arguments "hello" "Hey" "friend" (by decide) (by decide)⟩

/-- A run on more than three arguments takes the usage path, whatever the
arguments are. -/
theorem main_long (args : List String) (s : State) (h : 3 < args.length) :
    ∃ rs, main args s = .ok (0, ⟨s.stdout ++ usageText, s.reads ++ rs⟩) := by
  rcases args with _ | ⟨a, _ | ⟨b, _ | ⟨c, _ | ⟨d, rest⟩⟩⟩⟩
  · simp at h
  · simp at h
  · simp at h
  · simp at h
  · by_cases h1 : a = "-h"
    · subst h1
      exact ⟨_, main_dash_h _ _ _⟩
    · by_cases h2 : a = "--help"
      · subst h2
        exact ⟨_, main_dash_dash_help _ _ _⟩
      · exact ⟨_, main_many _ _ _ _ _ _ h1 h2⟩

/-- C5: for every argument vector of length greater than 3, whatever the
contents of its elements, `main` outputs exactly the usage line and returns
exit status 0. -/
theorem main_too_many_arguments (args : List String) (h : 3 < args.length) :
    mainOutput args = some "Usage: hello [greeting] [noun]\n" ∧ mainStatus args = some 0 := by
  obtain ⟨rs, hrun⟩ := main_long args State.init h
  constructor
  · rw [mainOutput_of_run hrun]
    simp [State.init, usageText]
  · rw [mainStatus_of_run hrun]

/-- Witness of C5: `hello Hey friend extra`. -/
theorem main_too_many_arguments_witness :
    3 < ["hello", "Hey", "friend", "extra"].length ∧
      mainOutput ["hello", "Hey", "friend", "extra"] = some "Usage: hello [greeting] [noun]\n" ∧
      mainStatus ["hello", "Hey", "friend", "extra"] = some 0 :=
  ⟨by decide, main_too_many_arguments ["hello", "Hey", "friend", "extra"] (by decide)⟩

/-- Every run of `main` returns, with status 0, in a state that extends the
entry state: the output and the read log only grow. -/
theorem main_returns (args : List String) (s : State) :
    ∃ text rs, main args s = .ok (0, ⟨s.stdout ++ text, s.reads ++ rs⟩) := by
  rcases args with _ | ⟨a, _ | ⟨b, rest⟩⟩
  · exact ⟨formatGreeting "Hello" "world", [], by simp [main_short, printf]⟩
  · exact ⟨formatGreeting "Hello" "world", [], by simp [main_short, printf]⟩
  · by_cases h1 : a = "-h"
    · subst h1
      exact ⟨_, _, main_dash_h _ _ _⟩
    · by_cases h2 : a = "--help"
      · subst h2
        exact ⟨_, _, main_dash_dash_help _ _ _⟩
      · rcases rest with _ | ⟨c, _ | ⟨d, rest⟩⟩
        · exact ⟨_, _, main_two _ _ _ h1 h2⟩
        · exact ⟨_, _, main_three _ _ _ _ h1 h2⟩
        · exact ⟨_, _, main_many _ _ _ _ _ _ h1 h2⟩

/-- C6: for every argument vector (any length, any contents), `main` returns
exit status 0: the run returns, and its status is 0 on the usage path and on
the greeting path alike. -/
theorem main_status_zero (args : List String) : mainStatus args = some 0 := by
  obtain ⟨text, rs, hrun⟩ := main_returns args State.init
  rw [mainStatus_of_run hrun]

/-- C7: a help flag supplied as the first user argument is not treated as a
help request: for every invocation name `args[0]` that is neither `-h` nor
`--help` and for `flag` one of `-h`, `--help`, `main` on `[args[0], flag]`
outputs `flag ++ ", world.\n"`, not the usage message, with exit status 0. -/
theorem main_help_flag_as_greeting (a0 flag : String)
    (h1 : a0 ≠ "-h") (h2 : a0 ≠ "--help") (hflag : flag = "-h" ∨ flag = "--help") :
    mainOutput [a0, flag] = some (flag ++ ", world.\n") ∧
      mainOutput [a0, flag] ≠ some "Usage: hello [greeting] [noun]\n" ∧
      mainStatus [a0, flag] = some 0 := by
  have hrun := main_two a0 flag State.init h1 h2
  have hne : formatGreeting flag "world" ≠ usageText := by
    rcases hflag with rfl | rfl <;> decide
  refine ⟨?_, ?_, ?_⟩
  · rw [mainOutput_of_run hrun]
    simp [State.init, formatGreeting_world]
  · rw [mainOutput_of_run hrun]
    simpa [State.init, usageText] using hne
  · rw [mainStatus_of_run hrun]

/-- Witness of C7: `hello -h` prints `-h, world.\n`. -/
theorem main_help_flag_as_greeting_witness :
    ("hello" ≠ "-h" ∧ "hello" ≠ "--help" ∧ ("-h" = "-h" ∨ "-h" = "--help")) ∧
      mainOutput ["hello", "-h"] = some ("-h" ++ ", world.\n") ∧
      mainOutput ["hello", "-h"] ≠ some "Usage: hello [greeting] [noun]\n" ∧
      mainStatus ["hello", "-h"] = some 0 :=
  ⟨by decide, main_help_flag_as_greeting "hello" "-h" (by decide) (by decide) (Or.inl rfl)⟩

/-! ## Shape of the output -/

/-- C8, as stated, fails: with a greeting that contains a newline, the output
`Hey\nyou, world.\n` holds two newline characters. -/
theorem main_single_line_counterexample :
    mainOutput ["hello", "Hey\nyou"] = some "Hey\nyou, world.\n" ∧
      ¬ ("Hey\nyou, world.\n".data.getLast? = some '\n' ∧
          "Hey\nyou, world.\n".data.count '\n' = 1) := by
  decide

/-- C8, amended: for every argument vector, the output of `main` ends with a
newline character; it contains no other newline character if and only if
`main` prints the usage line (`argc > 1` and `args[0]` is `-h` or `--help`, or
`argc > 3`) or the arguments at positions 1 and 2, where present, contain no
newline character. -/
theorem main_single_line (args : List String) :
    ∃ out, mainOutput args = some out ∧ out.data.getLast? = some '\n' ∧
      (out.data.count '\n' = 1 ↔
        (((1 < args.length ∧ (args[0]? = some "-h" ∨ args[0]? = some "--help"))
            ∨ 3 < args.length) ∨
          ((∀ a, args[1]? = some a → '\n' ∉ a.data) ∧
            (∀ a, args[2]? = some a → '\n' ∉ a.data)))) := by
  have husage : usageText.data.getLast? = some '\n' ∧ usageText.data.count '\n' = 1 := by
    decide
  have hdefault : (formatGreeting "Hello" "world").data.count '\n' = 1 := by decide
  have hworld : "world".data.count '\n' = 0 := by decide
  rcases args with _ | ⟨a, _ | ⟨b, rest⟩⟩
  · refine ⟨_, mainOutput_of_run (main_short [] State.init (by simp)), ?_, ?_⟩
    · simp [printf, State.init, formatGreeting_getLast]
    · simp [printf, State.init, hdefault]
  · refine ⟨_, mainOutput_of_run (main_short [a] State.init (by simp)), ?_, ?_⟩
    · simp [printf, State.init, formatGreeting_getLast]
    · simp [printf, State.init, hdefault]
  · by_cases h1 : a = "-h"
    · subst h1
      refine ⟨_, mainOutput_of_run (main_dash_h b rest State.init), ?_, ?_⟩
      · simpa [State.init] using husage.1
      · simp [State.init, husage.2]
    · by_cases h2 : a = "--help"
      · subst h2
        refine ⟨_, mainOutput_of_run (main_dash_dash_help b rest State.init), ?_, ?_⟩
        · simpa [State.init] using husage.1
        · simp [State.init, husage.2]
      · rcases rest with _ | ⟨c, _ | ⟨d, rest⟩⟩
        · refine ⟨_, mainOutput_of_run (main_two a b State.init h1 h2), ?_, ?_⟩
          · simp [State.init, formatGreeting_getLast]
          · simp [State.init, formatGreeting_count, hworld, h1, h2, List.count_eq_zero]
        · refine ⟨_, mainOutput_of_run (main_three a b c State.init h1 h2), ?_, ?_⟩
          · simp [State.init, formatGreeting_getLast]
          · simp [State.init, formatGreeting_count, h1, h2, List.count_eq_zero]
        · refine ⟨_, mainOutput_of_run (main_many a b c d rest State.init h1 h2), ?_, ?_⟩
          · simpa [State.init] using husage.1
          · simp [State.init, husage.2]

/-- Witness of C8 (amended): `hello Hey friend` prints the single line
`Hey, friend.\n`, and `-h` followed by an argument that holds a newline prints
the single usage line. -/
theorem main_single_line_witness :
    (∃ out, mainOutput ["hello", "Hey", "friend"] = some out ∧
      out.data.getLast? = some '\n' ∧ out.data.count '\n' = 1) ∧
    (∃ out, mainOutput ["-h", "Hey\nyou"] = some out ∧
      out.data.getLast? = some '\n' ∧ out.data.count '\n' = 1) := by
  constructor
  · obtain ⟨out, hout, hlast, hcount⟩ := main_single_line ["hello", "Hey", "friend"]
    refine ⟨out, hout, hlast, hcount.mpr (Or.inr ⟨?_, ?_⟩)⟩
    · intro a ha
      have ha2 : a = "Hey" := by simpa using ha.symm
      subst ha2
      decide
    · intro a ha
      have ha2 : a = "friend" := by simpa using ha.symm
      subst ha2
      decide
  · obtain ⟨out, hout, hlast, hcount⟩ := main_single_line ["-h", "Hey\nyou"]
    exact ⟨out, hout, hlast, hcount.mpr (Or.inl (Or.inl ⟨by decide, Or.inl rfl⟩))⟩

/-! ## What the run depends on -/

/-- A run of `main` is determined by `argc` and by the arguments at positions
0, 1 and 2. -/
theorem main_congr (a b : List String) (s : State) (hlen : a.length = b.length)
    (h0 : a[0]? = b[0]?) (h1 : a[1]? = b[1]?) (h2 : a[2]? = b[2]?) :
    main a s = main b s := by
  rcases a with _ | ⟨a0, _ | ⟨a1, _ | ⟨a2, _ | ⟨a3, ra⟩⟩⟩⟩ <;>
    rcases b with _ | ⟨b0, _ | ⟨b1, _ | ⟨b2, _ | ⟨b3, rb⟩⟩⟩⟩
  all_goals first
    | (simp only [List.length_cons, List.length_nil] at hlen; omega)
    | skip
  · rfl
  · rw [main_short _ _ (by simp), main_short _ _ (by simp)]
  · have e0 : a0 = b0 := by simpa using h0
    have e1 : a1 = b1 := by simpa using h1
    rw [e0, e1]
  · have e0 : a0 = b0 := by simpa using h0
    have e1 : a1 = b1 := by simpa using h1
    have e2 : a2 = b2 := by simpa using h2
    rw [e0, e1, e2]
  · have e0 : a0 = b0 := by simpa using h0
    rw [← e0]
    by_cases hh : a0 = "-h"
    · rw [hh, main_dash_h, main_dash_h]
    · by_cases hl : a0 = "--help"
      · rw [hl, main_dash_dash_help, main_dash_dash_help]
      · rw [main_many _ _ _ _ _ _ hh hl, main_many _ _ _ _ _ _ hh hl]

/-- C9: the output and exit status of `main` are a function of the argument
count and of the arguments at positions 0, 1 and 2 only: any two argument
vectors of the same length that agree at positions 0, 1 and 2 (where present)
produce identical output and identical exit status, and both runs do produce
them; in particular two runs on identical arguments produce identical output. -/
theorem main_determined_by_prefix (a b : List String) (hlen : a.length = b.length)
    (h0 : a[0]? = b[0]?) (h1 : a[1]? = b[1]?) (h2 : a[2]? = b[2]?) :
    ∃ out status, mainOutput a = some out ∧ mainOutput b = some out ∧
      mainStatus a = some status ∧ mainStatus b = some status := by
  obtain ⟨text, rs, hrun⟩ := main_returns a State.init
  have hrunb := hrun
  rw [main_congr a b State.init hlen h0 h1 h2] at hrunb
  exact ⟨_, _, mainOutput_of_run hrun, mainOutput_of_run hrunb,
    mainStatus_of_run hrun, mainStatus_of_run hrunb⟩

/-- Witness of C9: two vectors of length 5 that differ only from position 3 on. -/
theorem main_determined_by_prefix_witness :
    ∃ out status,
      mainOutput ["hello", "Hey", "friend", "x", "y"] = some out ∧
      mainOutput ["hello", "Hey", "friend", "p", "q"] = some out ∧
      mainStatus ["hello", "Hey", "friend", "x", "y"] = some status ∧
      mainStatus ["hello", "Hey", "friend", "p", "q"] = some status :=
  main_determined_by_prefix ["hello", "Hey", "friend", "x", "y"]
    ["hello", "Hey", "friend", "p", "q"] rfl rfl rfl rfl

/-! ## Argument accesses -/

/-- C10: every argument access in `main` is in bounds: for every argument
vector (including the empty one) the run returns without a fault, every index
it has read is below `argc`, `args[0]` is read only when `argc > 1`, `args[1]`
only when `argc > 1` and `args[2]` only when `argc > 2`. -/
theorem main_reads_in_bounds (args : List String) :
    ∃ status s, main args State.init = .ok (status, s) ∧
      (∀ i ∈ s.reads, i < args.length) ∧
      (0 ∈ s.reads → 1 < args.length) ∧
      (1 ∈ s.reads → 1 < args.length) ∧
      (2 ∈ s.reads → 2 < args.length) := by
  rcases args with _ | ⟨a, _ | ⟨b, rest⟩⟩
  · exact ⟨_, _, main_short [] State.init (by simp), by simp [printf, State.init]⟩
  · exact ⟨_, _, main_short [a] State.init (by simp), by simp [printf, State.init]⟩
  · by_cases h1 : a = "-h"
    · subst h1
      exact ⟨_, _, main_dash_h b rest State.init, by simp [State.init]⟩
    · by_cases h2 : a = "--help"
      · subst h2
        exact ⟨_, _, main_dash_dash_help b rest State.init, by simp [State.init]⟩
      · rcases rest with _ | ⟨c, _ | ⟨d, rest⟩⟩
        · exact ⟨_, _, main_two a b State.init h1 h2, by simp [State.init]⟩
        · exact ⟨_, _, main_three a b c State.init h1 h2, by simp [State.init]⟩
        · exact ⟨_, _, main_many a b c d rest State.init h1 h2, by simp [State.init]⟩

/-! ## Order of the usage check and the overrides -/

/-- A run on more than one argument whose invocation name is `-h` or `--help`
takes the usage path, and the only `argv` slot it reads is slot 0. -/
theorem main_help_name (args : List String) (s : State) (hlen : 1 < args.length)
    (h0 : args[0]? = some "-h" ∨ args[0]? = some "--help") :
    ∃ rs, main args s = .ok (0, ⟨s.stdout ++ usageText, s.reads ++ rs⟩) ∧
      ∀ i ∈ rs, i = 0 := by
  rcases args with _ | ⟨a, _ | ⟨b, rest⟩⟩
  · simp at hlen
  · simp at hlen
  · rcases h0 with h | h
    · have ha : a = "-h" := by simpa using h
      subst ha
      exact ⟨[0], main_dash_h b rest s, by simp⟩
    · have ha : a = "--help" := by simpa using h
      subst ha
      exact ⟨[0, 0], main_dash_dash_help b rest s, by simp⟩

/-- C11: the usage check is evaluated first and wins over the overrides: for
every argument vector of length 2 or 3 whose element at position 0 is exactly
`-h` or `--help`, `main` outputs exactly the usage line with exit status 0,
and the elements at positions 1 and 2 have no effect on the output: they are
never read, and every vector of length 2 or 3 with the same element at
position 0 produces the same output. -/
theorem main_usage_wins (args : List String)
    (hlen : args.length = 2 ∨ args.length = 3)
    (h0 : args[0]? = some "-h" ∨ args[0]? = some "--help") :
    mainOutput args = some "Usage: hello [greeting] [noun]\n" ∧
      mainStatus args = some 0 ∧
      (∃ rs, mainReads args = some rs ∧ 1 ∉ rs ∧ 2 ∉ rs) ∧
      (∀ other : List String, (other.length = 2 ∨ other.length = 3) →
        other[0]? = args[0]? → mainOutput other = mainOutput args) := by
  have hout : ∀ l : List String, (l.length = 2 ∨ l.length = 3) →
      (l[0]? = some "-h" ∨ l[0]? = some "--help") →
      mainOutput l = some "Usage: hello [greeting] [noun]\n" := by
    intro l hl h
    obtain ⟨rs, hrun, _⟩ := main_help_name l State.init (by omega) h
    rw [mainOutput_of_run hrun]
    simp [State.init, usageText]
  obtain ⟨rs, hrun, hrs⟩ := main_help_name args State.init (by omega) h0
  refine ⟨hout args hlen h0, mainStatus_of_run hrun, ⟨_, mainReads_of_run hrun, ?_, ?_⟩, ?_⟩
  · intro hmem
    rcases List.mem_append.mp hmem with h | h
    · simp [State.init] at h
    · exact absurd (hrs 1 h) (by decide)
  · intro hmem
    rcases List.mem_append.mp hmem with h | h
    · simp [State.init] at h
    · exact absurd (hrs 2 h) (by decide)
  · intro other hl hsame
    rw [hout args hlen h0, hout other hl (hsame ▸ h0)]

/-- Witness of C11: `-h Hey friend` prints the usage line. -/
theorem main_usage_wins_witness :
    ((["-h", "Hey", "friend"].length = 2 ∨ ["-h", "Hey", "friend"].length = 3) ∧
      (["-h", "Hey", "friend"][0]? = some "-h" ∨
        ["-h", "Hey", "friend"][0]? = some "--help")) ∧
    (mainOutput ["-h", "Hey", "friend"] = some "Usage: hello [greeting] [noun]\n" ∧
      mainStatus ["-h", "Hey", "friend"] = some 0 ∧
      (∃ rs, mainReads ["-h", "Hey", "friend"] = some rs ∧ 1 ∉ rs ∧ 2 ∉ rs) ∧
      (∀ other : List String, (other.length = 2 ∨ other.length = 3) →
        other[0]? = ["-h", "Hey", "friend"][0]? →
        mainOutput other = mainOutput ["-h", "Hey", "friend"])) :=
  ⟨⟨Or.inr rfl, Or.inl rfl⟩,
    main_usage_wins ["-h", "Hey", "friend"] (Or.inr rfl) (Or.inl rfl)⟩

end Hello
